import Mathlib

/-!
Verification of the Cycles split-kernel direct-lighting stage
(`src/kernel/split/kernel_direct_lighting.h`).

The kernel body is embedded from the source.  The shading/sampling
subsystem (`path_state_rng_1D/2D`, `path_state_rng_light_termination`,
`light_sample`, `direct_emission`) is an external collaborator and is
modelled as a record of oracle functions.  The queue and ray-state
primitives (`get_ray_index`, `enqueue_ray_index_local`, `IS_STATE`,
`ADD_RAY_FLAG`) are code of the repository that is not under `src/`;
they are modelled from the spec, as marked in their doc comments.

Float values (`float`, `float3`) are never computed with inside this
kernel, only passed between oracles, so they are represented by opaque
integer bit-patterns.
-/

namespace Cycles

/-- Opaque bit-pattern of a C `float`; the kernel only moves these values
between the RNG oracles and the sampling oracles, never computes with them. -/
abbrev Flt := Int

/-- Opaque bit-pattern of a C `float3` (the shading position `P`). -/
abbrev Float3 := Int × Int × Int

/-- Sentinel returned by `get_ray_index` when the queue holds no entry for
this thread. -/
def QUEUE_EMPTY_SLOT : Int := -1

/-- Queue id of the input queue of the stage. -/
def QUEUE_ACTIVE_AND_REGENERATED_RAYS : Nat := 0

/-- Queue id of a bystander queue the stage never touches. -/
def QUEUE_HITBG_BUFF_UPDATE_TOREGEN_RAYS : Nat := 1

/-- Queue id of the output queue of the stage. -/
def QUEUE_SHADOW_RAY_CAST_DL_RAYS : Nat := 3

/-- Modelled from the spec: mask isolating the base state of a ray-state
word; flags live in the bits above the mask, so a slot can be
simultaneously ACTIVE and marked for shadow-ray casting (missing from
`src/`: the ray-state enum of `kernel_types.h`). -/
def RAY_STATE_MASK : Nat := 7

/-- Modelled from the spec: base state of an actively tracing ray. -/
def RAY_ACTIVE : Nat := 1

/-- Modelled from the spec: flag bit (outside `RAY_STATE_MASK`) marking a
slot that must run the deferred shadow/occlusion test this round. -/
def RAY_SHADOW_RAY_CAST_DL : Nat := 16

/-- Shading-data flag bit: the surface has an evaluable BSDF. -/
def SD_BSDF_HAS_EVAL : Nat := 8

/-- RNG stream-discriminator dimension for the light pick. -/
def PRNG_LIGHT : Nat := 3

/-- RNG stream-discriminator dimension for the light (u,v) sample. -/
def PRNG_LIGHT_U : Nat := 4

/-- Modelled from the spec: `is_state(index, flag)` tests the base state
of a ray-state word, flags above the mask notwithstanding (missing from
`src/`: the `IS_STATE` macro). -/
def IS_STATE (w st : Nat) : Bool := (w &&& RAY_STATE_MASK) == st

/-- Modelled from the spec: `add_state_flag(index, flag)` is a logical OR
of flags onto the ray-state word (missing from `src/`: the
`ADD_RAY_FLAG` macro). -/
def ADD_RAY_FLAG (w flag : Nat) : Nat := w ||| flag

/-- Modelled from the spec: `get_ray_index(queue_id, offset)` returns the
slot index stored for this thread, or the EMPTY sentinel; the input queue
is read-only during its consumption round (missing from `src/`:
`kernel_queues.h`).  The queue store maps queue id and position to an
entry. -/
def get_ray_index (queue_data : Nat → Nat → Int) (thread_index : Nat)
    (queue_number : Nat) : Int :=
  queue_data queue_number thread_index

/-- Per-path state read by the kernel: the bounce counter is read
directly, the rest (`rng_offset`, sample number, ...) is consumed only by
the RNG oracles and kept opaque. -/
structure PathState where
  bounce : Nat
  rest : Nat
deriving DecidableEq

/-- Per-slot shading data: the kernel reads the flag word, the hit time
and the hit position `P`. -/
structure ShaderData where
  flag : Nat
  time : Flt
  P : Float3
deriving DecidableEq

/-- The external shading/sampling subsystem, specified only at its
interface: deterministic RNG streams and the two sampling routines, which
report rejection by returning `none`. -/
structure Externals (RNG LS Ray BE SDS : Type) where
  path_state_rng_1D : RNG → PathState → Nat → Flt
  path_state_rng_2D : RNG → PathState → Nat → Flt × Flt
  path_state_rng_light_termination : RNG → PathState → Flt
  light_sample : Flt → Flt → Flt → Flt → Float3 → Nat → Option LS
  direct_emission : ShaderData → SDS → LS → PathState → Flt → Option (Ray × BE × Bool)

/-- The shared split-kernel state the stage touches: per-slot ray-state
words, RNG streams, path states, shading data, the scratch fields
(`light_ray`, `bsdf_eval`, `is_lamp`), and the queue registry
(`queue_data` entries and `queue_index` counters). -/
structure SplitState (RNG Ray BE SDS : Type) where
  ray_state : Nat → Nat
  rng : Nat → RNG
  path_state : Nat → PathState
  sd : Nat → ShaderData
  sd_DL_shadow : SDS
  light_ray : Nat → Ray
  bsdf_eval : Nat → BE
  is_lamp : Nat → Bool
  queue_data : Nat → Nat → Int
  queue_index : Nat → Nat

variable {RNG LS Ray BE SDS : Type}

/-- The domain logic of `kernel_direct_lighting` for one slot
(source lines 83-127): gate on `RAY_ACTIVE` and, under `__EMISSION__`, on
`use_direct_light` and `SD_BSDF_HAS_EVAL`; draw the RNG samples; run
`light_sample`; run `direct_emission`; `some (light_ray, L_light,
is_lamp)` on acceptance, `none` on any rejection. -/
def direct_lighting_work (ext : Externals RNG LS Ray BE SDS)
    (use_direct_light : Bool) (rsw : Nat) (rng : RNG) (state : PathState)
    (sd : ShaderData) (sds : SDS) : Option (Ray × BE × Bool) :=
  if IS_STATE rsw RAY_ACTIVE then
    if use_direct_light && (sd.flag &&& SD_BSDF_HAS_EVAL != 0) then
      let light_t := ext.path_state_rng_1D rng state PRNG_LIGHT
      let light_uv := ext.path_state_rng_2D rng state PRNG_LIGHT_U
      let terminate := ext.path_state_rng_light_termination rng state
      match ext.light_sample light_t light_uv.1 light_uv.2 sd.time sd.P
          state.bounce with
      | some ls => ext.direct_emission sd sds ls state terminate
      | none => none
    else none
  else none

/-- Modelled from the spec: the per-thread contribution a call of
`enqueue_ray_index_local` stages into the group-local buffer — the slot
index when the enqueue flag is set, nothing otherwise (missing from
`src/`: `kernel_queues.h`). -/
def local_enqueue (enqueue_flag : Bool) (ray_index : Int) : Option Int :=
  if enqueue_flag then some ray_index else none

/-- The accepted-slot state mutation of the kernel (source lines
114-122): write the scratch fields and OR `RAY_SHADOW_RAY_CAST_DL` into
the slot's ray state. -/
def accept_writes (s : SplitState RNG Ray BE SDS) (i : Nat)
    (lr : Ray) (L : BE) (lamp : Bool) : SplitState RNG Ray BE SDS :=
  { s with
    light_ray := Function.update s.light_ray i lr
    bsdf_eval := Function.update s.bsdf_eval i L
    is_lamp := Function.update s.is_lamp i lamp
    ray_state := Function.update s.ray_state i
      (ADD_RAY_FLAG (s.ray_state i) RAY_SHADOW_RAY_CAST_DL) }

/-- One thread of `kernel_direct_lighting`, GPU compilation variant
(`__COMPUTE_DEVICE_GPU__` defined): a thread whose queue fetch returns
the EMPTY sentinel returns early and never reaches
`enqueue_ray_index_local`.  Returns the new shared state and the
thread's staged output-queue contribution. -/
def kernel_direct_lighting_gpu (ext : Externals RNG LS Ray BE SDS)
    (use_direct_light : Bool) (s : SplitState RNG Ray BE SDS)
    (tid : Nat) : SplitState RNG Ray BE SDS × Option Int :=
  let ray_index := get_ray_index s.queue_data tid
    QUEUE_ACTIVE_AND_REGENERATED_RAYS
  if ray_index = QUEUE_EMPTY_SLOT then
    (s, none)
  else
    let i := ray_index.toNat
    match direct_lighting_work ext use_direct_light (s.ray_state i)
        (s.rng i) (s.path_state i) (s.sd i) s.sd_DL_shadow with
    | some (lr, L, lamp) =>
        (accept_writes s i lr L lamp, local_enqueue true ray_index)
    | none => (s, local_enqueue false ray_index)

/-- One thread of `kernel_direct_lighting`, CPU compilation variant
(`__COMPUTE_DEVICE_GPU__` not defined): an EMPTY thread falls through the
guarded block with `enqueue_flag = 0` and still calls
`enqueue_ray_index_local`, so it participates in the group barriers. -/
def kernel_direct_lighting_cpu (ext : Externals RNG LS Ray BE SDS)
    (use_direct_light : Bool) (s : SplitState RNG Ray BE SDS)
    (tid : Nat) : SplitState RNG Ray BE SDS × Option Int :=
  let ray_index := get_ray_index s.queue_data tid
    QUEUE_ACTIVE_AND_REGENERATED_RAYS
  let step :=
    if ray_index ≠ QUEUE_EMPTY_SLOT then
      let i := ray_index.toNat
      match direct_lighting_work ext use_direct_light (s.ray_state i)
          (s.rng i) (s.path_state i) (s.sd i) s.sd_DL_shadow with
      | some (lr, L, lamp) => (accept_writes s i lr L lamp, true)
      | none => (s, false)
    else (s, false)
  (step.1, local_enqueue step.2 ray_index)

/-- Run one thread after another over the shared state, collecting the
staged output-queue contributions in thread order.  Parameterized by the
per-thread step so both compilation variants can be compared. -/
def run_threads
    (step : SplitState RNG Ray BE SDS → Nat → SplitState RNG Ray BE SDS × Option Int) :
    SplitState RNG Ray BE SDS → List Nat → SplitState RNG Ray BE SDS × List Int
  | s, [] => (s, [])
  | s, t :: ts =>
    let r := step s t
    let rest := run_threads step r.1 ts
    (rest.1, r.2.toList ++ rest.2)

/-- Write one entry of a queue in the queue store. -/
def queue_store (qd : Nat → Nat → Int) (q pos : Nat) (v : Int) :
    Nat → Nat → Int :=
  fun qn p => if qn = q ∧ p = pos then v else qd qn p

/-- Modelled from the spec: the global stage of the compaction copies the
staged slot indices into the reserved contiguous region of the target
queue, starting at the reserved offset (missing from `src/`:
`kernel_queues.h`). -/
def write_queue_entries (q : Nat) :
    (Nat → Nat → Int) → Nat → List Int → (Nat → Nat → Int)
  | qd, _, [] => qd
  | qd, p, x :: xs => write_queue_entries q (queue_store qd q p x) (p + 1) xs

/-- One round of the stage with a given per-thread step: run every
dispatched thread, then append the staged contributions to
`QUEUE_SHADOW_RAY_CAST_DL_RAYS` and bump its counter.  Returns the final
shared state and the list of enqueued slot indices. -/
def direct_lighting_round_with
    (step : SplitState RNG Ray BE SDS → Nat → SplitState RNG Ray BE SDS × Option Int)
    (s : SplitState RNG Ray BE SDS) (tids : List Nat) :
    SplitState RNG Ray BE SDS × List Int :=
  let r := run_threads step s tids
  let start := r.1.queue_index QUEUE_SHADOW_RAY_CAST_DL_RAYS
  ({ r.1 with
      queue_data := write_queue_entries QUEUE_SHADOW_RAY_CAST_DL_RAYS
        r.1.queue_data start r.2
      queue_index := Function.update r.1.queue_index
        QUEUE_SHADOW_RAY_CAST_DL_RAYS (start + r.2.length) },
   r.2)

/-- One round of `kernel_direct_lighting` (CPU variant as the canonical
semantics; the GPU variant is proved observationally equal). -/
def kernel_direct_lighting_round (ext : Externals RNG LS Ray BE SDS)
    (use_direct_light : Bool) (s : SplitState RNG Ray BE SDS)
    (tids : List Nat) : SplitState RNG Ray BE SDS × List Int :=
  direct_lighting_round_with (kernel_direct_lighting_cpu ext use_direct_light) s tids

/-- Modelled from the spec: the local stage of the compaction — the
group-local staging buffer holds exactly the slot indices of the group's
threads whose enqueue flag is set (missing from `src/`:
`kernel_queues.h`).  A group is the list of its threads' `local_enqueue`
contributions. -/
def local_stage (group : List (Option Int)) : List Int := group.filterMap id

/-- Modelled from the spec: the output queue after the global stage — the
groups' staged buffers laid out in the contiguous regions reserved by
the global fetch-and-add, in reservation order. -/
def queue_after_round (order : List (List Int)) : List Int := order.flatten

/-- The rejection disjunction of the stage for one slot's inputs: not
ACTIVE, or BSDF not evaluable, or `light_sample` finds no valid light, or
`direct_emission` rejects the sample. -/
def rejects (ext : Externals RNG LS Ray BE SDS) (rsw : Nat) (rng : RNG)
    (state : PathState) (sd : ShaderData) (sds : SDS) : Prop :=
  IS_STATE rsw RAY_ACTIVE = false ∨
  sd.flag &&& SD_BSDF_HAS_EVAL = 0 ∨
  ext.light_sample (ext.path_state_rng_1D rng state PRNG_LIGHT)
    (ext.path_state_rng_2D rng state PRNG_LIGHT_U).1
    (ext.path_state_rng_2D rng state PRNG_LIGHT_U).2
    sd.time sd.P state.bounce = none ∨
  ∃ ls, ext.light_sample (ext.path_state_rng_1D rng state PRNG_LIGHT)
      (ext.path_state_rng_2D rng state PRNG_LIGHT_U).1
      (ext.path_state_rng_2D rng state PRNG_LIGHT_U).2
      sd.time sd.P state.bounce = some ls ∧
    ext.direct_emission sd sds ls state
      (ext.path_state_rng_light_termination rng state) = none

/-! ### Structure lemmas -/

theorem accept_writes_rng (s : SplitState RNG Ray BE SDS) (i : Nat) (lr : Ray)
    (L : BE) (lamp : Bool) : (accept_writes s i lr L lamp).rng = s.rng := rfl

theorem accept_writes_path_state (s : SplitState RNG Ray BE SDS) (i : Nat)
    (lr : Ray) (L : BE) (lamp : Bool) :
    (accept_writes s i lr L lamp).path_state = s.path_state := rfl

theorem accept_writes_sd (s : SplitState RNG Ray BE SDS) (i : Nat) (lr : Ray)
    (L : BE) (lamp : Bool) : (accept_writes s i lr L lamp).sd = s.sd := rfl

theorem accept_writes_sd_DL_shadow (s : SplitState RNG Ray BE SDS) (i : Nat)
    (lr : Ray) (L : BE) (lamp : Bool) :
    (accept_writes s i lr L lamp).sd_DL_shadow = s.sd_DL_shadow := rfl

theorem accept_writes_queue_data (s : SplitState RNG Ray BE SDS) (i : Nat)
    (lr : Ray) (L : BE) (lamp : Bool) :
    (accept_writes s i lr L lamp).queue_data = s.queue_data := rfl

theorem accept_writes_queue_index (s : SplitState RNG Ray BE SDS) (i : Nat)
    (lr : Ray) (L : BE) (lamp : Bool) :
    (accept_writes s i lr L lamp).queue_index = s.queue_index := rfl

/-- The rejection disjunction indeed makes the domain logic produce
nothing, whatever the `use_direct_light` flag. -/
theorem rejects_work_none (ext : Externals RNG LS Ray BE SDS) (u : Bool)
    (rsw : Nat) (rng : RNG) (state : PathState) (sd : ShaderData) (sds : SDS)
    (h : rejects ext rsw rng state sd sds) :
    direct_lighting_work ext u rsw rng state sd sds = none := by
  unfold direct_lighting_work
  rcases h with h | h | h | ⟨ls, hls, hde⟩
  · simp [h]
  · simp [h]
  · simp [h]
  · simp [hls, hde]

/-- The acceptance conditions make the domain logic produce the outputs
of `direct_emission`. -/
theorem accepts_work_some (ext : Externals RNG LS Ray BE SDS)
    (rsw : Nat) (rng : RNG) (state : PathState) (sd : ShaderData) (sds : SDS)
    (ls : LS) (lr : Ray) (L : BE) (lamp : Bool)
    (hact : IS_STATE rsw RAY_ACTIVE = true)
    (heval : sd.flag &&& SD_BSDF_HAS_EVAL ≠ 0)
    (hls : ext.light_sample (ext.path_state_rng_1D rng state PRNG_LIGHT)
      (ext.path_state_rng_2D rng state PRNG_LIGHT_U).1
      (ext.path_state_rng_2D rng state PRNG_LIGHT_U).2
      sd.time sd.P state.bounce = some ls)
    (hde : ext.direct_emission sd sds ls state
      (ext.path_state_rng_light_termination rng state) = some (lr, L, lamp)) :
    direct_lighting_work ext true rsw rng state sd sds = some (lr, L, lamp) := by
  unfold direct_lighting_work
  simp [hact, heval, hls, hde]

/-- CPU-variant step on a thread whose queue fetch is the EMPTY sentinel:
the shared state is untouched and nothing is staged. -/
theorem cpu_step_empty (ext : Externals RNG LS Ray BE SDS) (u : Bool)
    (s : SplitState RNG Ray BE SDS) (tid : Nat)
    (h : s.queue_data QUEUE_ACTIVE_AND_REGENERATED_RAYS tid = QUEUE_EMPTY_SLOT) :
    kernel_direct_lighting_cpu ext u s tid = (s, none) := by
  unfold kernel_direct_lighting_cpu get_ray_index
  simp [h, local_enqueue]

/-- GPU-variant step on an EMPTY thread: early return, shared state
untouched, nothing staged. -/
theorem gpu_step_empty (ext : Externals RNG LS Ray BE SDS) (u : Bool)
    (s : SplitState RNG Ray BE SDS) (tid : Nat)
    (h : s.queue_data QUEUE_ACTIVE_AND_REGENERATED_RAYS tid = QUEUE_EMPTY_SLOT) :
    kernel_direct_lighting_gpu ext u s tid = (s, none) := by
  unfold kernel_direct_lighting_gpu get_ray_index
  simp [h]

/-- CPU-variant step on a dispatched thread whose domain logic rejects:
the shared state is untouched and nothing is staged. -/
theorem cpu_step_reject (ext : Externals RNG LS Ray BE SDS) (u : Bool)
    (s : SplitState RNG Ray BE SDS) (tid : Nat) (ri : Int)
    (hq : s.queue_data QUEUE_ACTIVE_AND_REGENERATED_RAYS tid = ri)
    (hne : ri ≠ QUEUE_EMPTY_SLOT)
    (hw : direct_lighting_work ext u (s.ray_state ri.toNat) (s.rng ri.toNat)
      (s.path_state ri.toNat) (s.sd ri.toNat) s.sd_DL_shadow = none) :
    kernel_direct_lighting_cpu ext u s tid = (s, none) := by
  unfold kernel_direct_lighting_cpu get_ray_index
  simp [hq, hne, hw, local_enqueue]

/-- CPU-variant step on a dispatched thread whose domain logic accepts:
the scratch and flag writes land and the slot index is staged. -/
theorem cpu_step_accept (ext : Externals RNG LS Ray BE SDS) (u : Bool)
    (s : SplitState RNG Ray BE SDS) (tid : Nat) (ri : Int)
    (lr : Ray) (L : BE) (lamp : Bool)
    (hq : s.queue_data QUEUE_ACTIVE_AND_REGENERATED_RAYS tid = ri)
    (hne : ri ≠ QUEUE_EMPTY_SLOT)
    (hw : direct_lighting_work ext u (s.ray_state ri.toNat) (s.rng ri.toNat)
      (s.path_state ri.toNat) (s.sd ri.toNat) s.sd_DL_shadow = some (lr, L, lamp)) :
    kernel_direct_lighting_cpu ext u s tid =
      (accept_writes s ri.toNat lr L lamp, some ri) := by
  unfold kernel_direct_lighting_cpu get_ray_index
  simp [hq, hne, hw, local_enqueue]

/-- The two compilation variants agree thread-by-thread. -/
theorem step_variants_eq (ext : Externals RNG LS Ray BE SDS) (u : Bool)
    (s : SplitState RNG Ray BE SDS) (tid : Nat) :
    kernel_direct_lighting_cpu ext u s tid =
    kernel_direct_lighting_gpu ext u s tid := by
  unfold kernel_direct_lighting_cpu kernel_direct_lighting_gpu
  by_cases h : get_ray_index s.queue_data tid
      QUEUE_ACTIVE_AND_REGENERATED_RAYS = QUEUE_EMPTY_SLOT
  · simp [h, local_enqueue]
  · simp only [h, if_false, if_neg h, ne_eq, not_false_iff, if_true]
    cases hw : direct_lighting_work ext u
        (s.ray_state (get_ray_index s.queue_data tid
          QUEUE_ACTIVE_AND_REGENERATED_RAYS).toNat)
        (s.rng (get_ray_index s.queue_data tid
          QUEUE_ACTIVE_AND_REGENERATED_RAYS).toNat)
        (s.path_state (get_ray_index s.queue_data tid
          QUEUE_ACTIVE_AND_REGENERATED_RAYS).toNat)
        (s.sd (get_ray_index s.queue_data tid
          QUEUE_ACTIVE_AND_REGENERATED_RAYS).toNat)
        s.sd_DL_shadow with
    | none => simp [local_enqueue]
    | some res => obtain ⟨lr, L, lamp⟩ := res; simp [local_enqueue]

/-- One CPU-variant step never touches the read-only fields: RNG streams,
path states, shading data, the shadow shading buffer, and the whole queue
registry. -/
theorem cpu_step_immutable (ext : Externals RNG LS Ray BE SDS) (u : Bool)
    (s : SplitState RNG Ray BE SDS) (tid : Nat) :
    (kernel_direct_lighting_cpu ext u s tid).1.rng = s.rng ∧
    (kernel_direct_lighting_cpu ext u s tid).1.path_state = s.path_state ∧
    (kernel_direct_lighting_cpu ext u s tid).1.sd = s.sd ∧
    (kernel_direct_lighting_cpu ext u s tid).1.sd_DL_shadow = s.sd_DL_shadow ∧
    (kernel_direct_lighting_cpu ext u s tid).1.queue_data = s.queue_data ∧
    (kernel_direct_lighting_cpu ext u s tid).1.queue_index = s.queue_index := by
  by_cases h : s.queue_data QUEUE_ACTIVE_AND_REGENERATED_RAYS tid = QUEUE_EMPTY_SLOT
  · rw [cpu_step_empty ext u s tid h]
    exact ⟨rfl, rfl, rfl, rfl, rfl, rfl⟩
  · cases hw : direct_lighting_work ext u
        (s.ray_state (s.queue_data QUEUE_ACTIVE_AND_REGENERATED_RAYS tid).toNat)
        (s.rng (s.queue_data QUEUE_ACTIVE_AND_REGENERATED_RAYS tid).toNat)
        (s.path_state (s.queue_data QUEUE_ACTIVE_AND_REGENERATED_RAYS tid).toNat)
        (s.sd (s.queue_data QUEUE_ACTIVE_AND_REGENERATED_RAYS tid).toNat)
        s.sd_DL_shadow with
    | none =>
        rw [cpu_step_reject ext u s tid _ rfl h hw]
        exact ⟨rfl, rfl, rfl, rfl, rfl, rfl⟩
    | some res =>
        obtain ⟨lr, L, lamp⟩ := res
        rw [cpu_step_accept ext u s tid _ lr L lamp rfl h hw]
        exact ⟨rfl, rfl, rfl, rfl, rfl, rfl⟩

/-- Running a list of CPU-variant threads never touches the read-only
fields. -/
theorem run_threads_immutable (ext : Externals RNG LS Ray BE SDS) (u : Bool) :
    ∀ (tids : List Nat) (s : SplitState RNG Ray BE SDS),
    (run_threads (kernel_direct_lighting_cpu ext u) s tids).1.rng = s.rng ∧
    (run_threads (kernel_direct_lighting_cpu ext u) s tids).1.path_state = s.path_state ∧
    (run_threads (kernel_direct_lighting_cpu ext u) s tids).1.sd = s.sd ∧
    (run_threads (kernel_direct_lighting_cpu ext u) s tids).1.sd_DL_shadow = s.sd_DL_shadow ∧
    (run_threads (kernel_direct_lighting_cpu ext u) s tids).1.queue_data = s.queue_data ∧
    (run_threads (kernel_direct_lighting_cpu ext u) s tids).1.queue_index = s.queue_index
  | [], s => ⟨rfl, rfl, rfl, rfl, rfl, rfl⟩
  | t :: ts, s => by
    have hstep := cpu_step_immutable ext u s t
    have hrest := run_threads_immutable ext u ts (kernel_direct_lighting_cpu ext u s t).1
    unfold run_threads
    exact ⟨hrest.1.trans hstep.1,
           hrest.2.1.trans hstep.2.1,
           hrest.2.2.1.trans hstep.2.2.1,
           hrest.2.2.2.1.trans hstep.2.2.2.1,
           hrest.2.2.2.2.1.trans hstep.2.2.2.2.1,
           hrest.2.2.2.2.2.trans hstep.2.2.2.2.2⟩

/-- Copying staged entries into one queue leaves every other queue's
entries alone. -/
theorem write_queue_entries_other (q : Nat) :
    ∀ (xs : List Int) (qd : Nat → Nat → Int) (p : Nat) (qn : Nat),
    qn ≠ q → ∀ pos, write_queue_entries q qd p xs qn pos = qd qn pos
  | [], _, _, _, _, _ => rfl
  | x :: xs, qd, p, qn, hqn, pos => by
    unfold write_queue_entries
    rw [write_queue_entries_other q xs _ (p + 1) qn hqn pos]
    unfold queue_store
    simp [hqn]

/-- If the rejection disjunction holds for slot `i`, running any list of
CPU-variant threads leaves slot `i`'s ray state and scratch fields
unchanged and never stages `i` for the output queue. -/
theorem run_threads_rejected_slot (ext : Externals RNG LS Ray BE SDS)
    (u : Bool) (i : Nat) :
    ∀ (tids : List Nat) (s : SplitState RNG Ray BE SDS),
    rejects ext (s.ray_state i) (s.rng i) (s.path_state i) (s.sd i)
      s.sd_DL_shadow →
    (run_threads (kernel_direct_lighting_cpu ext u) s tids).1.ray_state i
        = s.ray_state i ∧
    (run_threads (kernel_direct_lighting_cpu ext u) s tids).1.light_ray i
        = s.light_ray i ∧
    (run_threads (kernel_direct_lighting_cpu ext u) s tids).1.bsdf_eval i
        = s.bsdf_eval i ∧
    (run_threads (kernel_direct_lighting_cpu ext u) s tids).1.is_lamp i
        = s.is_lamp i ∧
    (i : Int) ∉ (run_threads (kernel_direct_lighting_cpu ext u) s tids).2
  | [], s, _ => by
    refine ⟨rfl, rfl, rfl, rfl, ?_⟩
    simp [run_threads]
  | t :: ts, s, hrej => by
    by_cases h : s.queue_data QUEUE_ACTIVE_AND_REGENERATED_RAYS t
        = QUEUE_EMPTY_SLOT
    · have ih := run_threads_rejected_slot ext u i ts s hrej
      simp only [run_threads, cpu_step_empty ext u s t h, Option.toList_none,
        List.nil_append]
      exact ih
    · cases hw : direct_lighting_work ext u
          (s.ray_state (s.queue_data QUEUE_ACTIVE_AND_REGENERATED_RAYS t).toNat)
          (s.rng (s.queue_data QUEUE_ACTIVE_AND_REGENERATED_RAYS t).toNat)
          (s.path_state (s.queue_data QUEUE_ACTIVE_AND_REGENERATED_RAYS t).toNat)
          (s.sd (s.queue_data QUEUE_ACTIVE_AND_REGENERATED_RAYS t).toNat)
          s.sd_DL_shadow with
      | none =>
          have ih := run_threads_rejected_slot ext u i ts s hrej
          simp only [run_threads, cpu_step_reject ext u s t _ rfl h hw,
            Option.toList_none, List.nil_append]
          exact ih
      | some res =>
          obtain ⟨lr, L, lamp⟩ := res
          by_cases hji :
              (s.queue_data QUEUE_ACTIVE_AND_REGENERATED_RAYS t).toNat = i
          · rw [hji] at hw
            rw [rejects_work_none ext u _ _ _ _ _ hrej] at hw
            exact absurd hw (by simp)
          · have hslot :
                (accept_writes s
                  (s.queue_data QUEUE_ACTIVE_AND_REGENERATED_RAYS t).toNat
                  lr L lamp).ray_state i = s.ray_state i ∧
                (accept_writes s
                  (s.queue_data QUEUE_ACTIVE_AND_REGENERATED_RAYS t).toNat
                  lr L lamp).light_ray i = s.light_ray i ∧
                (accept_writes s
                  (s.queue_data QUEUE_ACTIVE_AND_REGENERATED_RAYS t).toNat
                  lr L lamp).bsdf_eval i = s.bsdf_eval i ∧
                (accept_writes s
                  (s.queue_data QUEUE_ACTIVE_AND_REGENERATED_RAYS t).toNat
                  lr L lamp).is_lamp i = s.is_lamp i := by
              unfold accept_writes
              refine ⟨?_, ?_, ?_, ?_⟩ <;>
                simp [Function.update_noteq (fun he => hji he.symm)]
            have hrej1 : rejects ext
                ((accept_writes s
                  (s.queue_data QUEUE_ACTIVE_AND_REGENERATED_RAYS t).toNat
                  lr L lamp).ray_state i)
                ((accept_writes s
                  (s.queue_data QUEUE_ACTIVE_AND_REGENERATED_RAYS t).toNat
                  lr L lamp).rng i)
                ((accept_writes s
                  (s.queue_data QUEUE_ACTIVE_AND_REGENERATED_RAYS t).toNat
                  lr L lamp).path_state i)
                ((accept_writes s
                  (s.queue_data QUEUE_ACTIVE_AND_REGENERATED_RAYS t).toNat
                  lr L lamp).sd i)
                (accept_writes s
                  (s.queue_data QUEUE_ACTIVE_AND_REGENERATED_RAYS t).toNat
                  lr L lamp).sd_DL_shadow := by
              rw [hslot.1, accept_writes_rng, accept_writes_path_state,
                accept_writes_sd, accept_writes_sd_DL_shadow]
              exact hrej
            have ih := run_threads_rejected_slot ext u i ts _ hrej1
            simp only [run_threads, cpu_step_accept ext u s t _ lr L lamp rfl h hw,
              Option.toList_some, List.singleton_append]
            refine ⟨ih.1.trans hslot.1, ih.2.1.trans hslot.2.1,
              ih.2.2.1.trans hslot.2.2.1, ih.2.2.2.1.trans hslot.2.2.2, ?_⟩
            intro hmem
            rcases List.mem_cons.mp hmem with heq | hmem2
            · apply hji
              rw [← heq]
              exact Int.toNat_natCast i
            · exact ih.2.2.2.2 hmem2

/-! ### The claims -/

/-- C1: for every dispatched slot whose processing reaches acceptance
(state ACTIVE, BSDF evaluable, `light_sample` succeeds, `direct_emission`
accepts), the stage writes the shadow ray into `light_ray[index]`, the
weighted BSDF-evaluation result into `bsdf_eval[index]`, the lamp flag
into `is_lamp[index]`, ORs `RAY_SHADOW_RAY_CAST_DL` into the slot's ray
state, stages the slot index for the output queue, and the index lands in
`QUEUE_SHADOW_RAY_CAST_DL_RAYS`. -/
theorem direct_lighting_C1 (ext : Externals RNG LS Ray BE SDS) (u : Bool)
    (s : SplitState RNG Ray BE SDS) (tid i : Nat) (ls : LS) (lr : Ray)
    (L : BE) (lamp : Bool)
    (hq : s.queue_data QUEUE_ACTIVE_AND_REGENERATED_RAYS tid = (i : Int))
    (hu : u = true)
    (hact : IS_STATE (s.ray_state i) RAY_ACTIVE = true)
    (heval : (s.sd i).flag &&& SD_BSDF_HAS_EVAL ≠ 0)
    (hls : ext.light_sample
      (ext.path_state_rng_1D (s.rng i) (s.path_state i) PRNG_LIGHT)
      (ext.path_state_rng_2D (s.rng i) (s.path_state i) PRNG_LIGHT_U).1
      (ext.path_state_rng_2D (s.rng i) (s.path_state i) PRNG_LIGHT_U).2
      (s.sd i).time (s.sd i).P (s.path_state i).bounce = some ls)
    (hde : ext.direct_emission (s.sd i) s.sd_DL_shadow ls (s.path_state i)
      (ext.path_state_rng_light_termination (s.rng i) (s.path_state i))
      = some (lr, L, lamp)) :
    (kernel_direct_lighting_cpu ext u s tid).1.light_ray i = lr ∧
    (kernel_direct_lighting_cpu ext u s tid).1.bsdf_eval i = L ∧
    (kernel_direct_lighting_cpu ext u s tid).1.is_lamp i = lamp ∧
    (kernel_direct_lighting_cpu ext u s tid).1.ray_state i
      = ADD_RAY_FLAG (s.ray_state i) RAY_SHADOW_RAY_CAST_DL ∧
    (kernel_direct_lighting_cpu ext u s tid).2 = some (i : Int) ∧
    (i : Int) ∈ (kernel_direct_lighting_round ext u s [tid]).2 ∧
    (kernel_direct_lighting_round ext u s [tid]).1.queue_data
      QUEUE_SHADOW_RAY_CAST_DL_RAYS
      (s.queue_index QUEUE_SHADOW_RAY_CAST_DL_RAYS) = (i : Int) := by
  subst hu
  have hne : (i : Int) ≠ QUEUE_EMPTY_SLOT := by
    unfold QUEUE_EMPTY_SLOT
    omega
  have hti : ((i : Int)).toNat = i := Int.toNat_natCast i
  have hw : direct_lighting_work ext true
      (s.ray_state ((i : Int)).toNat) (s.rng ((i : Int)).toNat)
      (s.path_state ((i : Int)).toNat) (s.sd ((i : Int)).toNat)
      s.sd_DL_shadow = some (lr, L, lamp) := by
    rw [hti]
    exact accepts_work_some ext _ _ _ _ _ ls lr L lamp hact heval hls hde
  have hcpu := cpu_step_accept ext true s tid (i : Int) lr L lamp hq hne hw
  have hsi : (kernel_direct_lighting_cpu ext true s tid).1
      = accept_writes s i lr L lamp := by
    rw [hcpu, hti]
  refine ⟨?_, ?_, ?_, ?_, ?_, ?_, ?_⟩
  · rw [hsi]; exact Function.update_same i lr s.light_ray
  · rw [hsi]; exact Function.update_same i L s.bsdf_eval
  · rw [hsi]; exact Function.update_same i lamp s.is_lamp
  · rw [hsi]; exact Function.update_same i _ s.ray_state
  · rw [hcpu]
  · unfold kernel_direct_lighting_round direct_lighting_round_with run_threads
    rw [hcpu]
    simp [run_threads]
  · unfold kernel_direct_lighting_round direct_lighting_round_with run_threads
    rw [hcpu]
    simp only [run_threads, Option.toList_some, List.append_nil]
    simp [write_queue_entries, queue_store, accept_writes_queue_index]

/-- C2: a dispatched slot that is not ACTIVE, or whose shading flag word
lacks `SD_BSDF_HAS_EVAL`, is skipped as a no-op: the shared state is
untouched and the thread stages nothing for the output queue. -/
theorem direct_lighting_C2 (ext : Externals RNG LS Ray BE SDS) (u : Bool)
    (s : SplitState RNG Ray BE SDS) (tid i : Nat)
    (hq : s.queue_data QUEUE_ACTIVE_AND_REGENERATED_RAYS tid = (i : Int))
    (h : ¬(IS_STATE (s.ray_state i) RAY_ACTIVE = true ∧
           (s.sd i).flag &&& SD_BSDF_HAS_EVAL ≠ 0)) :
    kernel_direct_lighting_cpu ext u s tid = (s, none) := by
  have hne : (i : Int) ≠ QUEUE_EMPTY_SLOT := by
    unfold QUEUE_EMPTY_SLOT
    omega
  have hti : ((i : Int)).toNat = i := Int.toNat_natCast i
  have hrej : rejects ext (s.ray_state i) (s.rng i) (s.path_state i)
      (s.sd i) s.sd_DL_shadow := by
    by_cases hact : IS_STATE (s.ray_state i) RAY_ACTIVE = true
    · refine Or.inr (Or.inl ?_)
      by_contra hev
      exact h ⟨hact, hev⟩
    · exact Or.inl (Bool.eq_false_iff.mpr hact)
  have hw : direct_lighting_work ext u
      (s.ray_state ((i : Int)).toNat) (s.rng ((i : Int)).toNat)
      (s.path_state ((i : Int)).toNat) (s.sd ((i : Int)).toNat)
      s.sd_DL_shadow = none := by
    rw [hti]
    exact rejects_work_none ext u _ _ _ _ _ hrej
  exact cpu_step_reject ext u s tid (i : Int) hq hne hw

/-- C3: a slot not accepted this round (not ACTIVE, or BSDF not
evaluable, or no valid light sample, or `direct_emission` rejects) keeps
its ray-state word and its `light_ray`, `bsdf_eval` and `is_lamp` scratch
fields unchanged through the whole round, and its index never appears in
the output queue. -/
theorem direct_lighting_C3 (ext : Externals RNG LS Ray BE SDS) (u : Bool)
    (s : SplitState RNG Ray BE SDS) (tids : List Nat) (i : Nat)
    (hrej : rejects ext (s.ray_state i) (s.rng i) (s.path_state i)
      (s.sd i) s.sd_DL_shadow) :
    (kernel_direct_lighting_round ext u s tids).1.ray_state i
      = s.ray_state i ∧
    (kernel_direct_lighting_round ext u s tids).1.light_ray i
      = s.light_ray i ∧
    (kernel_direct_lighting_round ext u s tids).1.bsdf_eval i
      = s.bsdf_eval i ∧
    (kernel_direct_lighting_round ext u s tids).1.is_lamp i
      = s.is_lamp i ∧
    (i : Int) ∉ (kernel_direct_lighting_round ext u s tids).2 := by
  have h := run_threads_rejected_slot ext u i tids s hrej
  unfold kernel_direct_lighting_round direct_lighting_round_with
  exact ⟨h.1, h.2.1, h.2.2.1, h.2.2.2.1, h.2.2.2.2⟩

/-- C5: the stage is deterministic — two slots (or two runs) with
identical RNG state, path state, shading data, ray-state word and
shadow-shading buffer produce bit-identical shadow-ray / BSDF-eval /
is-lamp outputs and the same accept/reject decision. -/
theorem direct_lighting_C5 (ext : Externals RNG LS Ray BE SDS) (u : Bool)
    (s t : SplitState RNG Ray BE SDS) (i : Nat)
    (h1 : s.rng i = t.rng i) (h2 : s.path_state i = t.path_state i)
    (h3 : s.sd i = t.sd i) (h4 : s.ray_state i = t.ray_state i)
    (h5 : s.sd_DL_shadow = t.sd_DL_shadow) :
    direct_lighting_work ext u (s.ray_state i) (s.rng i) (s.path_state i)
      (s.sd i) s.sd_DL_shadow
    = direct_lighting_work ext u (t.ray_state i) (t.rng i) (t.path_state i)
      (t.sd i) t.sd_DL_shadow := by
  rw [h1, h2, h3, h4, h5]

/-- C6: setting `RAY_SHADOW_RAY_CAST_DL` through `ADD_RAY_FLAG` is a
bitwise OR — every bit set on the slot's ray-state word before the
operation is still set after it. -/
theorem direct_lighting_C6 (w k : Nat) (h : w.testBit k = true) :
    (ADD_RAY_FLAG w RAY_SHADOW_RAY_CAST_DL).testBit k = true := by
  unfold ADD_RAY_FLAG
  simp [Nat.testBit_or, h]

/-- C7: a thread whose queue fetch returns the EMPTY sentinel performs no
domain work this round — the shared state is untouched and nothing is
staged — in both compilation variants; in the CPU variant it still
reaches `enqueue_ray_index_local` (with a zero flag), so it participates
in the group barriers. -/
theorem direct_lighting_C7 (ext : Externals RNG LS Ray BE SDS) (u : Bool)
    (s : SplitState RNG Ray BE SDS) (tid : Nat)
    (h : s.queue_data QUEUE_ACTIVE_AND_REGENERATED_RAYS tid
      = QUEUE_EMPTY_SLOT) :
    kernel_direct_lighting_cpu ext u s tid = (s, none) ∧
    kernel_direct_lighting_gpu ext u s tid = (s, none) :=
  ⟨cpu_step_empty ext u s tid h, gpu_step_empty ext u s tid h⟩

/-- C9: even for a slot that is ACTIVE with an evaluable BSDF, the stage
performs no light sampling, no scratch writes and no enqueue when the
integrator's `use_direct_light` runtime flag is false. -/
theorem direct_lighting_C9 (ext : Externals RNG LS Ray BE SDS)
    (s : SplitState RNG Ray BE SDS) (tid i : Nat)
    (hq : s.queue_data QUEUE_ACTIVE_AND_REGENERATED_RAYS tid = (i : Int))
    (hact : IS_STATE (s.ray_state i) RAY_ACTIVE = true)
    (heval : (s.sd i).flag &&& SD_BSDF_HAS_EVAL ≠ 0) :
    kernel_direct_lighting_cpu ext false s tid = (s, none) := by
  have hne : (i : Int) ≠ QUEUE_EMPTY_SLOT := by
    unfold QUEUE_EMPTY_SLOT
    omega
  have hw : direct_lighting_work ext false
      (s.ray_state ((i : Int)).toNat) (s.rng ((i : Int)).toNat)
      (s.path_state ((i : Int)).toNat) (s.sd ((i : Int)).toNat)
      s.sd_DL_shadow = none := by
    unfold direct_lighting_work
    simp
  exact cpu_step_reject ext false s tid (i : Int) hq hne hw

/-- C10: the two conditional-compilation variants are observationally
equivalent — thread-by-thread and over whole rounds they leave identical
slot-store contents, ray states, and output-queue contents. -/
theorem direct_lighting_C10 (ext : Externals RNG LS Ray BE SDS) (u : Bool) :
    (∀ (s : SplitState RNG Ray BE SDS) (tid : Nat),
      kernel_direct_lighting_cpu ext u s tid
        = kernel_direct_lighting_gpu ext u s tid) ∧
    (∀ (s : SplitState RNG Ray BE SDS) (tids : List Nat),
      direct_lighting_round_with (kernel_direct_lighting_cpu ext u) s tids
        = direct_lighting_round_with (kernel_direct_lighting_gpu ext u) s tids) := by
  refine ⟨step_variants_eq ext u, fun s tids => ?_⟩
  have h : kernel_direct_lighting_cpu ext u
      = kernel_direct_lighting_gpu ext u :=
    funext fun s => funext fun tid => step_variants_eq ext u s tid
  rw [h]

/-- A slot index is staged by a group's local stage exactly when one of
the group's threads contributed it. -/
theorem mem_local_stage (g : List (Option Int)) (x : Int) :
    x ∈ local_stage g ↔ some x ∈ g := by
  unfold local_stage
  simp [List.mem_filterMap]

/-- C4: two-level compaction correctness — for any groups of threads in
which exactly the subset S of slot indices sets its enqueue flag, for
every timing of the group-local atomic increments (a permutation of each
group's staged buffer) and of the groups' global fetch-and-add
reservations (a permutation of the groups), the output queue after the
round is a permutation of the qualifying indices: its member set is
exactly S, with no omissions, and it has no duplicates whenever S has
none. -/
theorem direct_lighting_C4 (groups : List (List (Option Int)))
    (staged order : List (List Int))
    (hlocal : List.Forall₂ (fun st g => st.Perm (local_stage g)) staged groups)
    (hglobal : order.Perm staged) :
    (queue_after_round order).Perm (groups.map local_stage).flatten ∧
    (∀ x : Int, x ∈ queue_after_round order ↔ ∃ g ∈ groups, some x ∈ g) ∧
    ((groups.map local_stage).flatten.Nodup →
      (queue_after_round order).Nodup) := by
  have hstaged : staged.flatten.Perm (groups.map local_stage).flatten :=
    List.Perm.flatten_congr (List.forall₂_map_right_iff.mpr hlocal)
  have hperm : (queue_after_round order).Perm (groups.map local_stage).flatten :=
    hglobal.flatten.trans hstaged
  refine ⟨hperm, ?_, fun hnd => hperm.symm.nodup hnd⟩
  intro x
  rw [hperm.mem_iff]
  constructor
  · intro hx
    obtain ⟨l, hl, hxl⟩ := List.mem_flatten.mp hx
    obtain ⟨g, hg, rfl⟩ := List.mem_map.mp hl
    exact ⟨g, hg, (mem_local_stage g x).mp hxl⟩
  · rintro ⟨g, hg, hxg⟩
    exact List.mem_flatten.mpr ⟨local_stage g, List.mem_map_of_mem _ hg,
      (mem_local_stage g x).mpr hxg⟩

/-- C8: the stage treats every queue other than
`QUEUE_SHADOW_RAY_CAST_DL_RAYS` — in particular its input queue
`QUEUE_ACTIVE_AND_REGENERATED_RAYS` — as read-only: entries and count are
exactly what they were before the round. -/
theorem direct_lighting_C8 (ext : Externals RNG LS Ray BE SDS) (u : Bool)
    (s : SplitState RNG Ray BE SDS) (tids : List Nat) (q : Nat)
    (hq : q ≠ QUEUE_SHADOW_RAY_CAST_DL_RAYS) :
    (∀ pos, (kernel_direct_lighting_round ext u s tids).1.queue_data q pos
      = s.queue_data q pos) ∧
    (kernel_direct_lighting_round ext u s tids).1.queue_index q
      = s.queue_index q := by
  have himm := run_threads_immutable ext u tids s
  unfold kernel_direct_lighting_round direct_lighting_round_with
  dsimp only
  constructor
  · intro pos
    rw [write_queue_entries_other QUEUE_SHADOW_RAY_CAST_DL_RAYS _ _ _ q hq pos]
    rw [himm.2.2.2.2.1]
  · rw [Function.update_noteq hq]
    rw [himm.2.2.2.2.2]

/-! ### Concrete instantiations for the witnesses -/

/-- A concrete external subsystem over integer payloads: every light
sample is found and every emission evaluation accepts with ray `5`,
BSDF-eval `7` and a lamp. -/
def extW : Externals Nat Nat Nat Nat Nat where
  path_state_rng_1D := fun _ _ _ => 0
  path_state_rng_2D := fun _ _ _ => (0, 0)
  path_state_rng_light_termination := fun _ _ => 0
  light_sample := fun _ _ _ _ _ _ => some 0
  direct_emission := fun _ _ _ _ _ => some (5, 7, true)

/-- A concrete shared state: every slot ACTIVE with an evaluable BSDF,
every input-queue entry pointing at slot 0, all counters zero. -/
def sW : SplitState Nat Nat Nat Nat where
  ray_state := fun _ => RAY_ACTIVE
  rng := fun _ => 0
  path_state := fun _ => ⟨0, 0⟩
  sd := fun _ => ⟨SD_BSDF_HAS_EVAL, 0, (0, 0, 0)⟩
  sd_DL_shadow := 0
  light_ray := fun _ => 0
  bsdf_eval := fun _ => 0
  is_lamp := fun _ => false
  queue_data := fun _ _ => 0
  queue_index := fun _ => 0

/-- `sW` with no slot ACTIVE. -/
def sWinactive : SplitState Nat Nat Nat Nat :=
  { sW with ray_state := fun _ => 0 }

/-- `sW` with an empty input queue (every fetch yields the sentinel). -/
def sWempty : SplitState Nat Nat Nat Nat :=
  { sW with queue_data := fun _ _ => QUEUE_EMPTY_SLOT }

theorem direct_lighting_C1_witness :
    (kernel_direct_lighting_cpu extW true sW 0).1.light_ray 0 = 5 ∧
    (kernel_direct_lighting_cpu extW true sW 0).1.bsdf_eval 0 = 7 ∧
    (kernel_direct_lighting_cpu extW true sW 0).1.is_lamp 0 = true ∧
    (kernel_direct_lighting_cpu extW true sW 0).1.ray_state 0
      = ADD_RAY_FLAG (sW.ray_state 0) RAY_SHADOW_RAY_CAST_DL ∧
    (kernel_direct_lighting_cpu extW true sW 0).2 = some 0 ∧
    (0 : Int) ∈ (kernel_direct_lighting_round extW true sW [0]).2 ∧
    (kernel_direct_lighting_round extW true sW [0]).1.queue_data
      QUEUE_SHADOW_RAY_CAST_DL_RAYS
      (sW.queue_index QUEUE_SHADOW_RAY_CAST_DL_RAYS) = (0 : Int) :=
  direct_lighting_C1 extW true sW 0 0 0 5 7 true rfl rfl (by decide)
    (by decide) rfl rfl

theorem direct_lighting_C2_witness :
    kernel_direct_lighting_cpu extW true sWinactive 0 = (sWinactive, none) :=
  direct_lighting_C2 extW true sWinactive 0 0 rfl (by decide)

theorem direct_lighting_C3_witness :
    (kernel_direct_lighting_round extW true sWinactive [0]).1.ray_state 0
      = sWinactive.ray_state 0 ∧
    (kernel_direct_lighting_round extW true sWinactive [0]).1.light_ray 0
      = sWinactive.light_ray 0 ∧
    (kernel_direct_lighting_round extW true sWinactive [0]).1.bsdf_eval 0
      = sWinactive.bsdf_eval 0 ∧
    (kernel_direct_lighting_round extW true sWinactive [0]).1.is_lamp 0
      = sWinactive.is_lamp 0 ∧
    (0 : Int) ∉ (kernel_direct_lighting_round extW true sWinactive [0]).2 :=
  direct_lighting_C3 extW true sWinactive [0] 0 (Or.inl (by decide))

theorem direct_lighting_C4_witness :
    (queue_after_round [[5], [2]]).Perm
      ([[some 2, none], [some 5]].map local_stage).flatten ∧
    ((5 : Int) ∈ queue_after_round [[5], [2]] ↔
      ∃ g ∈ [[some 2, none], [some 5]], some (5 : Int) ∈ g) ∧
    (queue_after_round [[5], [2]]).Nodup :=
  have h := direct_lighting_C4 [[some 2, none], [some 5]] [[2], [5]] [[5], [2]]
    (List.Forall₂.cons (List.Perm.refl [2])
      (List.Forall₂.cons (List.Perm.refl [5]) List.Forall₂.nil))
    (List.Perm.swap [2] [5] [])
  ⟨h.1, h.2.1 5, h.2.2 (by decide)⟩

theorem direct_lighting_C5_witness :
    direct_lighting_work extW true (sW.ray_state 0) (sW.rng 0)
      (sW.path_state 0) (sW.sd 0) sW.sd_DL_shadow
    = direct_lighting_work extW true (sW.ray_state 0) (sW.rng 0)
      (sW.path_state 0) (sW.sd 0) sW.sd_DL_shadow :=
  direct_lighting_C5 extW true sW sW 0 rfl rfl rfl rfl rfl

theorem direct_lighting_C6_witness :
    (ADD_RAY_FLAG 3 RAY_SHADOW_RAY_CAST_DL).testBit 1 = true :=
  direct_lighting_C6 3 1 (by decide)

theorem direct_lighting_C7_witness :
    kernel_direct_lighting_cpu extW true sWempty 0 = (sWempty, none) ∧
    kernel_direct_lighting_gpu extW true sWempty 0 = (sWempty, none) :=
  direct_lighting_C7 extW true sWempty 0 rfl

theorem direct_lighting_C8_witness :
    (kernel_direct_lighting_round extW true sW [0]).1.queue_data
      QUEUE_ACTIVE_AND_REGENERATED_RAYS 0
      = sW.queue_data QUEUE_ACTIVE_AND_REGENERATED_RAYS 0 ∧
    (kernel_direct_lighting_round extW true sW [0]).1.queue_index
      QUEUE_ACTIVE_AND_REGENERATED_RAYS
      = sW.queue_index QUEUE_ACTIVE_AND_REGENERATED_RAYS :=
  have h := direct_lighting_C8 extW true sW [0]
    QUEUE_ACTIVE_AND_REGENERATED_RAYS (by decide)
  ⟨h.1 0, h.2⟩

theorem direct_lighting_C9_witness :
    kernel_direct_lighting_cpu extW false sW 0 = (sW, none) :=
  direct_lighting_C9 extW sW 0 0 rfl (by decide) (by decide)

end Cycles
